import Mathlib

set_option linter.unusedVariables false

/-!
Verification development for the envoy-ai-unified-installer repository.

The repository contains two near-duplicate bash upstream-sync scripts
(modelled in namespaces `merge000` and `merge001`), a Go CLI with an
upstream release lookup (`findChartAsset`, `FetchLatestRelease`,
`GetUpstreamCharts`), a helm command wrapper (`HelmCommand`), an install
orchestrator (`cleanPreviousInstall`) and a health checker (`runDoctor`).

Modelling conventions:
* JSON payloads handled by the bash scripts through `jq` are modelled by
  the structure `ReleaseJson`, which carries the raw JSON text (`raw`,
  used where the scripts interpolate the whole payload into a string)
  together with the fields the `jq` queries extract.
* External processes (curl, helm, kubectl, the GitHub client) are
  parameters of the embedded functions: a function argument supplies the
  outcome of each external call.
* Log lines written by the scripts' `log`/`info`/`warn` helpers are not
  modelled; only each function's principal result is.
-/

/-- Character-list version of "starts with". -/
def listStarts : List Char → List Char → Bool
  | _, [] => true
  | [], _ :: _ => false
  | h :: hs, n :: ns => h == n && listStarts hs ns

/-- Character-list version of "contains as a contiguous run". -/
def listHasSub : List Char → List Char → Bool
  | [], needle => listStarts [] needle
  | h :: hs, needle => listStarts (h :: hs) needle || listHasSub hs needle

/-- Substring test, the semantics of Go `strings.Contains` and of a
literal (regex-metacharacter-free) pattern match in `jq`'s `test`. -/
def strContains (hay needle : String) : Bool :=
  listHasSub hay.data needle.data

/-- Lower-casing, the semantics of Go `strings.ToLower` on the ASCII
names involved here (and of `jq`'s case-insensitive flag, applied by
lowering the subject against lowercase patterns). -/
def strLower (s : String) : String :=
  String.mk (s.data.map Char.toLower)

/-- Suffix test, the semantics of bash `[[ $s == *sfx ]]`, `jq`'s
`endswith` and Go `strings.HasSuffix`. -/
def strEnds (s sfx : String) : Bool :=
  listStarts s.data.reverse sfx.data.reverse

/-- The part after the last slash, the semantics of `sed 's/.*\///'`
(the greedy `.*` eats everything up to the last slash; a string without
a slash is unchanged). -/
def afterLastSlash (s : String) : String :=
  String.mk (s.data.foldl (fun acc c => if c == '/' then [] else acc ++ [c]) [])

/-- One element of the `assets` array of a GitHub release payload, as the
bash scripts consume it: a name and a `browser_download_url`. -/
structure AssetRef where
  name : String
  browser_download_url : String
deriving DecidableEq, Repr

/-- A GitHub "latest release" JSON payload as consumed by the bash
scripts: the raw document text plus the fields their `jq` queries read
(`.tag_name`, `.assets`, `.repository.full_name`). -/
structure ReleaseJson where
  raw : String
  tag_name : Option String
  assets : List AssetRef
  repository_full_name : Option String
deriving DecidableEq, Repr

/-- Result of `jq -r '.tag_name'`: the tag string, or the literal text
`"null"` when the field is absent or null. -/
def jqTagName (rj : ReleaseJson) : String :=
  rj.tag_name.getD "null"

namespace merge000

/-- The filter of part_000's jq query
`select(.name | test("helm|chart|tgz|tar\\.gz"; "i"))`: the lowered name
contains one of the alternatives `helm`, `chart`, `tgz`, `tar.gz`
(note: the regex spells `tgz` without a leading dot). -/
def regexKeywordMatch (name : String) : Bool :=
  strContains (strLower name) "helm" || strContains (strLower name) "chart" ||
    strContains (strLower name) "tgz" || strContains (strLower name) "tar.gz"

/-- part_000 `find_helm_chart_asset`. The bash function is called as
`find_helm_chart_asset "$release_json" "$owner" "$repo"`, so `arg1` is
the release JSON, `arg2` the owner and `arg3` the repo; the body reads
`$1` and `$2` when it synthesizes the fallback URL. -/
def find_helm_chart_asset (arg1 : ReleaseJson) (arg2 : String) (arg3 : String) :
    Except String String :=
  let url :=
    match (arg1.assets.filter (fun a => regexKeywordMatch a.name)).head? with
    | some a => a.browser_download_url
    | none => ""
  if url = "" ∨ url = "null" then
    let tag := jqTagName arg1
    if tag = "" ∨ tag = "null" then
      Except.error "No tag found in release"
    else
      Except.ok ("https://github.com/" ++ arg1.raw ++ "/" ++ arg2 ++
        "/archive/refs/tags/" ++ tag ++ ".tar.gz")
  else
    Except.ok url

/-- part_000 `process_upstream`, up to the point where the download URL
and local filename are determined (the subsequent download is the
Fetcher's job). The bash captures `find_helm_chart_asset` with
`local url=$(...)`, whose exit status is swallowed by `local`, so an
error exit inside the helper surfaces as an empty `url`. -/
def process_upstream (rj : ReleaseJson) (owner repo : String) :
    Except String (String × String) :=
  let tag := jqTagName rj
  let url :=
    match find_helm_chart_asset rj owner repo with
    | Except.ok u => u
    | Except.error _ => ""
  if url = "" ∨ url = "null" then
    Except.error ("Could not determine download URL for " ++ owner ++ "/" ++ repo)
  else
    Except.ok (url, owner ++ "-" ++ repo ++ "-" ++ tag ++ ".tgz")

end merge000

namespace merge001

/-- part_001 `get_download_url`. Reads `jq -r '.tag_name // empty'`
(empty string when the field is null or absent), then looks for the
first asset whose `browser_download_url` ends in `.tgz`; otherwise it
synthesizes the fallback from `.repository.full_name // empty` of the
payload itself. -/
def get_download_url (api_json : ReleaseJson) (repo_key : String) :
    Except String String :=
  let tag_name := api_json.tag_name.getD ""
  if tag_name = "" ∨ tag_name = "null" then
    Except.error ("No tag_name in API response for " ++ repo_key ++ " - skipping")
  else
    let tgz_url :=
      match (api_json.assets.filter
          (fun a => strEnds a.browser_download_url ".tgz")).head? with
      | some a => a.browser_download_url
      | none => ""
    if tgz_url ≠ "" ∧ tgz_url ≠ "null" then
      Except.ok tgz_url
    else
      let owner_repo := api_json.repository_full_name.getD ""
      if owner_repo = "" ∨ owner_repo = "null" then
        Except.error ("Cannot determine repository name from API response for " ++
          repo_key ++ " - skipping")
      else
        Except.ok ("https://github.com/" ++ owner_repo ++ "/archive/refs/tags/" ++
          tag_name ++ ".tar.gz")

/-- part_001 `process_repo`, up to the point where the download URL and
local filename are determined (the payload `api_json` stands for the
result of `fetch_latest_release`; the subsequent `download_file` call is
the Fetcher's job). `repo_name` is `sed 's/.*\///'` applied to the
configured `owner_repo`, i.e. the part after the last slash. -/
def process_repo_resolve (api_json : ReleaseJson) (owner_repo : String) :
    Except String (String × String) :=
  let tag_name := api_json.tag_name.getD ""
  if tag_name = "" ∨ tag_name = "null" then
    Except.error ("No valid tag_name for " ++ owner_repo ++ " - skipping")
  else
    match get_download_url api_json owner_repo with
    | Except.error e => Except.error e
    | Except.ok download_url =>
      if download_url = "" then
        Except.error ("No valid download URL for " ++ owner_repo ++ " - skipping")
      else
        let repo_name := afterLastSlash owner_repo
        let filename :=
          if strEnds download_url ".tar.gz" then
            repo_name ++ "-" ++ tag_name ++ ".tar.gz"
          else
            repo_name ++ "-" ++ tag_name ++ ".tgz"
        Except.ok (download_url, filename)

end merge001

/-- An asset of a release as the Go client presents it: both fields are
pointers in Go (`nil` modelled as `none`); the `GetName` and
`GetBrowserDownloadURL` accessors return `""` for `nil`. -/
structure GoAsset where
  name : Option String
  browserDownloadURL : Option String
deriving DecidableEq, Repr

/-- A `github.RepositoryRelease` as the Go code consumes it: the
`TagName` pointer and the assets list. -/
structure GoRelease where
  tagName : Option String
  assets : List GoAsset
deriving DecidableEq, Repr

/-- The `ChartRelease` record of the Go upstream package. -/
structure ChartRelease where
  Owner : String
  Repo : String
  Version : String
  URL : String
deriving DecidableEq, Repr

/-- The fixed keyword list of the Go `findChartAsset`. -/
def assetKeywords : List String := ["helm", "chart", ".tgz", "tar.gz"]

/-- The inner keyword loop of Go `findChartAsset` for one asset:
`strings.Contains(strings.ToLower(name), keyword)` for some keyword. -/
def goKeywordHit (a : GoAsset) : Bool :=
  assetKeywords.any (fun k => strContains (strLower (a.name.getD "")) k)

/-- Outer loop of Go `findChartAsset`: walk the assets in order and
return the `browser_download_url` of the first asset whose lowered name
contains one of the keywords; `""` when none matches. -/
def findChartAssetLoop : List GoAsset → String
  | [] => ""
  | a :: rest =>
    if goKeywordHit a then
      a.browserDownloadURL.getD ""
    else
      findChartAssetLoop rest

/-- Go `findChartAsset` applied to a release. -/
def findChartAsset (rel : GoRelease) : String :=
  findChartAssetLoop rel.assets

/-- Go `FetchLatestRelease`, with the GitHub client call
`client.Repositories.GetLatestRelease` modelled by the `apiResult`
parameter. -/
def fetchLatestRelease (owner repo : String) (apiResult : Except String GoRelease) :
    Except String ChartRelease :=
  match apiResult with
  | Except.error e =>
    Except.error ("failed to fetch latest release for " ++ owner ++ "/" ++ repo ++ ": " ++ e)
  | Except.ok rel =>
    let url := findChartAsset rel
    if url = "" then
      Except.error ("no chart asset found for " ++ owner ++ "/" ++ repo)
    else
      Except.ok { Owner := owner, Repo := repo, Version := rel.tagName.getD "", URL := url }

/-- The fixed upstream list of Go `GetUpstreamCharts`. -/
def goUpstreams : List (String × String) :=
  [("envoyproxy", "gateway"), ("envoyproxy", "ai-gateway-helm"),
    ("envoyproxy", "ai-gateway-crds-helm"), ("envoyproxy", "ai-gateway")]

/-- Loop of Go `GetUpstreamCharts`: successful fetches are appended to
the chart list, failed ones contribute their error string; both lists
keep upstream order. The per-upstream `FetchLatestRelease` outcome is
supplied by the `fetch` parameter. -/
def getUpstreamChartsLoop (fetch : String → String → Except String ChartRelease) :
    List (String × String) → List ChartRelease × List String
  | [] => ([], [])
  | (owner, repo) :: rest =>
    match fetch owner repo with
    | Except.error e =>
      let (charts, errs) := getUpstreamChartsLoop fetch rest
      (charts, e :: errs)
    | Except.ok c =>
      let (charts, errs) := getUpstreamChartsLoop fetch rest
      (c :: charts, errs)

/-- Go `GetUpstreamCharts`: the chart list plus the aggregate error
(`none` models Go's nil error). -/
def GetUpstreamCharts (fetch : String → String → Except String ChartRelease) :
    List ChartRelease × Option String :=
  let (charts, errs) := getUpstreamChartsLoop fetch goUpstreams
  if errs.isEmpty then (charts, none)
  else (charts, some ("errors fetching upstream charts:\n" ++ String.intercalate "\n" errs))

/-- What the remote endpoint does on one download attempt: answer with
an HTTP status and body, or fail at the connection level. -/
inductive HttpResponse
  | status (code : Nat) (body : String)
  | connFail
deriving DecidableEq, Repr

/-- Successful HTTP status range. -/
def is2xx (code : Nat) : Bool := 200 ≤ code && code < 300

/-- One `curl -f -o dest url` invocation, by curl's documented `--fail`
contract: on a 2xx answer the body is written to the destination and the
invocation succeeds; on a non-2xx answer the invocation fails with no
output written; on a connection failure it fails leaving the destination
as it was. Returns (succeeded, destination state afterwards). -/
def curlFetch (resp : HttpResponse) (dest : Option String) : Bool × Option String :=
  match resp with
  | HttpResponse.status code body =>
    if is2xx code then (true, some body) else (false, dest)
  | HttpResponse.connFail => (false, dest)

/-- Outcome of a `download_file` run: whether it succeeded, how many
attempts (curl invocations) were made, and the destination file state
(`none` when no file exists there). -/
structure DownloadOutcome where
  success : Bool
  attempts : Nat
  dest : Option String
deriving DecidableEq, Repr

namespace merge000

/-- Loop of part_000 `download_file`: `while [[ $retry_count -lt $max_retries ]]`.
`fuel` is `max_retries - retry_count`. On curl success, `validate_download`
errors out (exit 1) when the file is missing or empty, else the download
succeeds; on curl failure the counter is bumped and the loop retries. -/
def dlLoop (resp : Nat → HttpResponse) : Nat → Nat → Option String → DownloadOutcome
  | 0, retry_count, dest => { success := false, attempts := retry_count, dest := dest }
  | fuel + 1, retry_count, dest =>
    let r := curlFetch (resp retry_count) dest
    if r.1 then
      match r.2 with
      | some body =>
        if body.length = 0 then
          { success := false, attempts := retry_count + 1, dest := r.2 }
        else
          { success := true, attempts := retry_count + 1, dest := r.2 }
      | none => { success := false, attempts := retry_count + 1, dest := r.2 }
    else
      dlLoop resp fuel (retry_count + 1) r.2

/-- part_000 `download_file` with `max_retries=3`, starting from a given
destination state. -/
def download_file (resp : Nat → HttpResponse) (dest : Option String) : DownloadOutcome :=
  dlLoop resp 3 0 dest

end merge000

namespace merge001

/-- Loop of part_001 `download_file`: `for attempt in 1 2 3`. After a
successful curl invocation the script additionally requires the file to
exist and be non-empty before declaring success; otherwise (and on curl
failure) it retries until `attempt` reaches `MAX_RETRIES=3`, then
reports failure. Each list element is the value of `attempt`. -/
def dlLoop (resp : Nat → HttpResponse) : List Nat → Option String → DownloadOutcome
  | [], dest => { success := false, attempts := 3, dest := dest }
  | attempt :: rest, dest =>
    let r := curlFetch (resp attempt) dest
    if r.1 = true ∧ r.2.isSome = true ∧ r.2.getD "" ≠ "" then
      { success := true, attempts := attempt, dest := r.2 }
    else if attempt < 3 then
      dlLoop resp rest r.2
    else
      { success := false, attempts := attempt, dest := r.2 }

/-- part_001 `download_file` (each attempt's curl invocation also passes
`--retry 3 --retry-all-errors`, so one failed invocation may stand for
several underlying HTTP requests; the script-level attempt count is 3). -/
def download_file (resp : Nat → HttpResponse) (dest : Option String) : DownloadOutcome :=
  dlLoop resp [1, 2, 3] dest

end merge001

/-- Result of one multi-upstream run of a merge script's `main`:
either the script aborted early with an exit code after attempting a
number of upstreams, or the loop completed with the final counters and
the script's exit code. -/
inductive RunResult
  | aborted (exitCode : Nat) (attempted : Nat)
  | completed (processed : Nat) (failed : Nat) (exitCode : Nat)
deriving DecidableEq, Repr

namespace merge000

/-- The upstream list of part_000 `main`. -/
def upstreams : List String :=
  ["envoyproxy/gateway", "envoyproxy/ai-gateway-helm",
    "envoyproxy/ai-gateway-crds-helm", "envoyproxy/ai-gateway"]

/-- Loop of part_000 `main` under `set -euo pipefail`. `outcome u` is
whether `process_upstream` (run in the `if` pipeline) succeeds for
upstream `u`. Bash `((count++))` stores `count+1` and returns exit
status 1 when the old value was 0, and with `set -e` a nonzero status of
that plain command aborts the script with exit code 1. After the loop,
the script errors (exit 1) when `failed_count > 0`, else finishes. -/
def mainLoop (outcome : String → Bool) :
    List String → Nat → Nat → Nat → RunResult
  | [], processed_count, failed_count, attempted =>
    RunResult.completed processed_count failed_count (if failed_count > 0 then 1 else 0)
  | u :: rest, processed_count, failed_count, attempted =>
    if outcome u then
      if processed_count = 0 then RunResult.aborted 1 (attempted + 1)
      else mainLoop outcome rest (processed_count + 1) failed_count (attempted + 1)
    else
      if failed_count = 0 then RunResult.aborted 1 (attempted + 1)
      else mainLoop outcome rest processed_count (failed_count + 1) (attempted + 1)

/-- part_000 `main` over its fixed upstream list (tool validation is
assumed to pass). -/
def mainRun (outcome : String → Bool) : RunResult :=
  mainLoop outcome upstreams 0 0 0

end merge000

namespace merge001

/-- The `REPOS` list of part_001. -/
def repos : List String :=
  ["envoyproxy/gateway", "envoyproxy/ai-gateway-helm", "envoyproxy/ai-gateway-crds-helm"]

/-- Loop of part_001 `main` under `set -euo pipefail`, with the same
`((count++))` semantics as part_000. If the loop ever completed, the
script would finish with exit code 0 (failures only produce a warning in
the summary). -/
def mainLoop (outcome : String → Bool) :
    List String → Nat → Nat → Nat → RunResult
  | [], processed_count, failed_count, attempted =>
    RunResult.completed processed_count failed_count 0
  | u :: rest, processed_count, failed_count, attempted =>
    if outcome u then
      if processed_count = 0 then RunResult.aborted 1 (attempted + 1)
      else mainLoop outcome rest (processed_count + 1) failed_count (attempted + 1)
    else
      if failed_count = 0 then RunResult.aborted 1 (attempted + 1)
      else mainLoop outcome rest processed_count (failed_count + 1) (attempted + 1)

/-- part_001 `main` over its fixed repo list. -/
def mainRun (outcome : String → Bool) : RunResult :=
  mainLoop outcome repos 0 0 0

end merge001

/-- An observable side effect of the helm wrapper: a line printed to the
user, or an external process execution. -/
inductive Effect
  | printLine (s : String)
  | execProcess (cmd : String) (args : List String)
deriving DecidableEq, Repr

/-- Whether an effect is an external process execution. -/
def Effect.isExec : Effect → Bool
  | Effect.execProcess _ _ => true
  | Effect.printLine _ => false

/-- The Go `HelmOptions` struct. -/
structure HelmOptions where
  DryRun : Bool
  Namespace : String
  Values : List String
  Version : String
  ChartRepo : String
deriving Repr

/-- The Go `HelmCommand` struct (the `output` writer is not modelled). -/
structure HelmCommand where
  dryRun : Bool
deriving Repr

/-- Go `HelmCommand.Execute`. `run` supplies the external helm binary's
behavior (whether `helm args` exits successfully); in dry-run mode the
command is only printed and the call succeeds. Returns the effect trace
and the Go error result. -/
def HelmCommand.Execute (h : HelmCommand) (run : List String → Bool) (args : List String) :
    List Effect × Except String Unit :=
  if h.dryRun then
    ([Effect.printLine ("[DRY-RUN] helm " ++ String.intercalate " " args)], Except.ok ())
  else
    ([Effect.execProcess "helm" args],
      if run args then Except.ok () else Except.error "helm command failed")

/-- Go `HelmCommand.RepoAdd`. -/
def HelmCommand.RepoAdd (h : HelmCommand) (run : List String → Bool) (name url : String) :
    List Effect × Except String Unit :=
  h.Execute run ["repo", "add", name, url, "--force-update"]

/-- Go `HelmCommand.RepoUpdate`. -/
def HelmCommand.RepoUpdate (h : HelmCommand) (run : List String → Bool) :
    List Effect × Except String Unit :=
  h.Execute run ["repo", "update"]

/-- Go `HelmCommand.Install`: builds the `helm upgrade --install`
argument list from the options, then goes through `Execute`. -/
def HelmCommand.Install (h : HelmCommand) (run : List String → Bool)
    (releaseName chart ns : String) (opts : HelmOptions) :
    List Effect × Except String Unit :=
  let args := ["upgrade", "--install", releaseName, chart] ++ ["-n", ns, "--create-namespace"]
  let args := if opts.Version ≠ "" then args ++ ["--version", opts.Version] else args
  let args := opts.Values.foldl (fun acc v => acc ++ ["-f", v]) args
  let args := if opts.DryRun then args ++ ["--dry-run", "--debug"] else args
  h.Execute run args

/-- Go `HelmCommand.Uninstall`: has its own dry-run branch, otherwise
runs `helm uninstall releaseName -n ns` and returns its error. -/
def HelmCommand.Uninstall (h : HelmCommand) (run : List String → Bool)
    (releaseName ns : String) : List Effect × Except String Unit :=
  if h.dryRun then
    ([Effect.printLine ("[DRY-RUN] helm uninstall " ++ releaseName ++ " -n " ++ ns)],
      Except.ok ())
  else
    ([Effect.execProcess "helm" ["uninstall", releaseName, "-n", ns]],
      if run ["uninstall", releaseName, "-n", ns] then Except.ok ()
      else Except.error "exit status 1")

/-- The CLI `config.Config` fields used by the installer. -/
structure Config where
  NamespaceGateway : String
  NamespaceAI : String
  SkipClean : Bool
  DryRun : Bool
deriving Repr

/-- The previously-known release name/namespace pairs that
`cleanPreviousInstall` uninstalls. -/
def cleanReleases (cfg : Config) : List (String × String) :=
  [("eg", cfg.NamespaceGateway), ("aieg-crd", cfg.NamespaceAI), ("aieg", cfg.NamespaceAI)]

/-- Go `cleanPreviousInstall` (install.go): for each known release the
uninstall is attempted; a failed uninstall only prints a note; the
function always returns nil. Returns the effect trace and the result. -/
def cleanPreviousInstall (cfg : Config) (isDryRun : Bool) (run : List String → Bool) :
    List Effect × Except String Unit :=
  let helmCmd : HelmCommand := { dryRun := isDryRun }
  let effects := (cleanReleases cfg).foldl
    (fun acc r =>
      let u := helmCmd.Uninstall run r.1 r.2
      acc ++ u.1 ++
        (match u.2 with
         | Except.ok _ => []
         | Except.error _ =>
           [Effect.printLine ("  Note: " ++ r.1 ++ " was not previously installed")]))
    []
  (effects, Except.ok ())

/-- The external observations the doctor command's probes depend on:
tool presence, probe command outcomes, namespace existence, and the
redis pod lookup result per namespace. -/
structure DoctorEnv where
  kubectlOnPath : Bool
  kubectlClientVersion : Option String
  helmInstalled : Bool
  helmVersion : Option String
  clusterReachable : Bool
  namespaceExists : String → Bool
  redisPodName : String → Option String

/-- Go `checkKubectl`: kubectl must be on PATH and `kubectl version
--client --short` must produce output. -/
def checkKubectl (env : DoctorEnv) : Bool :=
  env.kubectlOnPath && env.kubectlClientVersion.isSome

/-- Go `checkHelm`: `ValidateHelmInstalled` must pass and `helm version
--short` must produce output. -/
def checkHelm (env : DoctorEnv) : Bool :=
  env.helmInstalled && env.helmVersion.isSome

/-- Go `checkKubernetesConnection`: `kubectl cluster-info` must succeed. -/
def checkKubernetesConnection (env : DoctorEnv) : Bool :=
  env.clusterReachable

/-- Go `checkNamespace`: when `kubectl get namespace` fails the probe
prints "Will be created during installation" and returns true; when the
namespace exists it returns true. -/
def checkNamespace (env : DoctorEnv) (ns : String) : Bool :=
  if env.namespaceExists ns then true else true

/-- Go `checkRedis`: true when the labelled pod lookup returns a
non-empty pod name. -/
def checkRedis (env : DoctorEnv) (ns : String) : Bool :=
  match env.redisPodName ns with
  | some p => p ≠ ""
  | none => false

/-- Go `runDoctor`: `allHealthy` is and-accumulated over the required
probes; a failed redis probe only adds a warning line; the command
errors exactly when `allHealthy` ends up false. Returns the warning
lines and the result. -/
def runDoctor (env : DoctorEnv) (nsGW nsAI : String) : List String × Except String Unit :=
  let allHealthy := true
  let allHealthy := if ¬ (checkKubectl env = true) then false else allHealthy
  let allHealthy := if ¬ (checkHelm env = true) then false else allHealthy
  let allHealthy := if ¬ (checkKubernetesConnection env = true) then false else allHealthy
  let allHealthy := if ¬ (checkNamespace env nsGW = true) then false else allHealthy
  let allHealthy := if ¬ (checkNamespace env nsAI = true) then false else allHealthy
  let warnings :=
    if ¬ (checkRedis env nsAI = true) then
      ["Redis:              Not installed (optional - install with --with-redis if needed)"]
    else []
  if allHealthy then (warnings, Except.ok ())
  else (warnings, Except.error "system health check failed")

/-- A release payload for owner `acme`, project `widget`, tag `v2.3.1`,
with an empty asset list: the fallback scenario of the spec. -/
def widgetNoAssets : ReleaseJson :=
  { raw := "\x7b\"tag_name\": \"v2.3.1\", \"assets\": []\x7d"
    tag_name := some "v2.3.1"
    assets := []
    repository_full_name := none }

/-- The asset-selection rule as the spec states it (claim C2): an asset
name matches when its lowered form contains any keyword of the fixed
case-insensitive set helm, chart, .tgz, tar.gz. -/
def claimedKeywordHit (name : String) : Bool :=
  ["helm", "chart", ".tgz", "tar.gz"].any (fun k => strContains (strLower name) k)

/-- The filename rule as the spec states it (claim C6): project-tag with
extension tgz, or tar.gz when the resolved URL ends in .tar.gz. -/
def claimedFilename (project tag url : String) : String :=
  if strEnds url ".tar.gz" then project ++ "-" ++ tag ++ ".tar.gz"
  else project ++ "-" ++ tag ++ ".tgz"

/-- A release whose first asset name contains `tgz` without a dot and
whose second asset name contains `chart`: it separates the bash regex
`helm|chart|tgz|tar\.gz` from the spec's keyword set. -/
def rjTgzThenChart : ReleaseJson :=
  { raw := "raw"
    tag_name := some "v1.0.0"
    assets := [{ name := "datgz", browser_download_url := "https://u1" },
               { name := "MyChart", browser_download_url := "https://u2" }]
    repository_full_name := none }

/-- A Go release with a single chart-named asset. -/
def relChartOnly : GoRelease :=
  { tagName := some "v1.0.0"
    assets := [{ name := some "MyChart", browserDownloadURL := some "https://u2" }] }

/-- A bash-side payload with a single chart-named asset. -/
def rjChartOnly : ReleaseJson :=
  { raw := "raw"
    tag_name := some "v1.0.0"
    assets := [{ name := "MyChart", browser_download_url := "https://u2" }]
    repository_full_name := none }

/-- A Go release payload carrying a chart asset but no tag (the
`tag_name` pointer is nil). -/
def relNoTag : GoRelease :=
  { tagName := none
    assets := [{ name := some "helm-chart.tgz",
                 browserDownloadURL := some "https://example.com/chart.tgz" }] }

/-- A bash-side payload with no tag field. -/
def rjNoTag : ReleaseJson :=
  { raw := "raw", tag_name := none, assets := [], repository_full_name := none }

/-- A Go release payload with a tag and a chart asset. -/
def relTagged : GoRelease :=
  { tagName := some "v1.0.0"
    assets := [{ name := some "chart.tgz", browserDownloadURL := some "https://u" }] }

/-- The acme/widget empty-assets payload as part_001 would need it (its
fallback reads `.repository.full_name` from the payload). -/
def widgetNoAssetsFullName : ReleaseJson :=
  { raw := "\x7b\"tag_name\": \"v2.3.1\", \"assets\": []\x7d"
    tag_name := some "v2.3.1"
    assets := []
    repository_full_name := some "acme/widget" }

/-- Projection of a `FetchLatestRelease` outcome to its chart. -/
def chartOf (e : Except String ChartRelease) : Option ChartRelease :=
  match e with
  | Except.ok c => some c
  | Except.error _ => none

/-- Projection of a `FetchLatestRelease` outcome to its error string. -/
def errOf (e : Except String ChartRelease) : Option String :=
  match e with
  | Except.error msg => some msg
  | Except.ok _ => none

/-- A fetch behavior where only the gateway upstream succeeds. -/
def fetchOnlyGateway : String → String → Except String ChartRelease :=
  fun owner repo =>
    if repo = "gateway" then
      Except.ok { Owner := owner, Repo := repo, Version := "v1.0.0", URL := "https://u" }
    else
      Except.error ("failed to fetch latest release for " ++ owner ++ "/" ++ repo ++ ": 404")

/-- A doctor environment with every tool healthy and no namespaces or
redis pod present. -/
def envAllTools : DoctorEnv :=
  { kubectlOnPath := true
    kubectlClientVersion := some "v1.28.0"
    helmInstalled := true
    helmVersion := some "v3.14.0"
    clusterReachable := true
    namespaceExists := fun _ => false
    redisPodName := fun _ => none }

/-- C1. The claim says that when no asset matches, the resolver returns
`https://github.com/{owner}/{project}/archive/refs/tags/{tag}.tar.gz`
built from the configured owner and project. The code of part_000
interpolates `$1` (the whole release JSON text) and `$2` (the owner)
instead of `$2` and `$3`: at the concrete acme/widget payload the
fallback URL embeds the JSON document and never mentions the project. -/
theorem find_helm_chart_asset_fallback_interpolates_payload :
    merge000.find_helm_chart_asset widgetNoAssets "acme" "widget" =
      Except.ok ("https://github.com/\x7b\"tag_name\": \"v2.3.1\", \"assets\": []\x7d/acme/archive/refs/tags/v2.3.1.tar.gz") ∧
    ("https://github.com/\x7b\"tag_name\": \"v2.3.1\", \"assets\": []\x7d/acme/archive/refs/tags/v2.3.1.tar.gz" : String) ≠
      "https://github.com/acme/widget/archive/refs/tags/v2.3.1.tar.gz" := by
  constructor
  · rfl
  · decide

/-- Characterization of the Go asset scan: it returns the download URL
of the first keyword-matching asset, or the empty string. -/
theorem findChartAssetLoop_eq_firstMatch (assets : List GoAsset) :
    findChartAssetLoop assets =
      (((assets.filter goKeywordHit).head?).map
        (fun a => a.browserDownloadURL.getD "")).getD "" := by
  induction assets with
  | nil => rfl
  | cons a rest ih =>
    by_cases h : goKeywordHit a = true
    · simp [findChartAssetLoop, h, List.filter_cons]
    · simp only [Bool.not_eq_true] at h
      simp [findChartAssetLoop, h, List.filter_cons, ih]

/-- An asset whose lowered name contains "chart" is a keyword hit. -/
theorem goKeywordHit_of_chart (a : GoAsset)
    (h : strContains (strLower (a.name.getD "")) "chart" = true) :
    goKeywordHit a = true := by
  unfold goKeywordHit assetKeywords
  simp only [List.any_cons, List.any_nil, Bool.or_eq_true, Bool.or_eq_false_iff]
  exact Or.inr (Or.inl h)

/-- C2 (counterexample). The claim's keyword set contains `.tgz` with a
dot, but the bash regex of part_000 matches plain `tgz`: on a release
whose first asset is named `datgz` and whose second is `MyChart`, the
claim predicts the second asset's URL (the first fixed-set match), while
the script returns the first asset's URL. -/
theorem find_helm_chart_asset_regex_counterexample :
    (rjTgzThenChart.assets.any (fun a => strContains (strLower a.name) "chart")) = true ∧
    (rjTgzThenChart.assets.filter (fun a => claimedKeywordHit a.name)).head? =
      some { name := "MyChart", browser_download_url := "https://u2" } ∧
    merge000.find_helm_chart_asset rjTgzThenChart "acme" "widget" = Except.ok "https://u1" ∧
    ("https://u1" : String) ≠ "https://u2" := by
  refine ⟨by decide, by decide, ?_, by decide⟩
  rfl

/-- C2 (amended). The Go `findChartAsset` scans the assets in host order
and returns the first keyword-matching asset's download URL, and a
release containing a "chart"-named asset always has such a first match;
the bash `find_helm_chart_asset` of part_000 likewise returns the first
asset matching its regex `helm|chart|tgz|tar\.gz` (note: `tgz` without
the dot) without taking the fallback branch, provided that asset's URL
is neither empty nor the literal `null`. -/
theorem asset_resolver_first_match :
    (∀ rel : GoRelease, findChartAsset rel =
      (((rel.assets.filter goKeywordHit).head?).map
        (fun a => a.browserDownloadURL.getD "")).getD "") ∧
    (∀ rel : GoRelease,
      rel.assets.any (fun a => strContains (strLower (a.name.getD "")) "chart") = true →
      ((rel.assets.filter goKeywordHit).head?).isSome = true) ∧
    (∀ (rj : ReleaseJson) (o r : String) (a : AssetRef),
      (rj.assets.filter (fun x => merge000.regexKeywordMatch x.name)).head? = some a →
      a.browser_download_url ≠ "" → a.browser_download_url ≠ "null" →
      merge000.find_helm_chart_asset rj o r = Except.ok a.browser_download_url) := by
  refine ⟨fun rel => findChartAssetLoop_eq_firstMatch rel.assets, ?_, ?_⟩
  · intro rel h
    rw [List.any_eq_true] at h
    obtain ⟨a, ha, hc⟩ := h
    have hk : goKeywordHit a = true := goKeywordHit_of_chart a hc
    have hmem : a ∈ rel.assets.filter goKeywordHit := List.mem_filter.mpr ⟨ha, hk⟩
    cases hfil : rel.assets.filter goKeywordHit with
    | nil => rw [hfil] at hmem; cases hmem
    | cons b l => simp [hfil]
  · intro rj o r a ha hu1 hu2
    unfold merge000.find_helm_chart_asset
    rw [ha]
    simp [hu1, hu2]

/-- C2 (witness). On a release whose only asset is named `MyChart`, the
chart hypothesis holds and the bash resolver returns that asset's URL. -/
theorem asset_resolver_first_match_witness :
    ((relChartOnly.assets.filter goKeywordHit).head?).isSome = true ∧
    merge000.find_helm_chart_asset rjChartOnly "acme" "widget" = Except.ok "https://u2" :=
  ⟨asset_resolver_first_match.2.1 relChartOnly (by decide),
   asset_resolver_first_match.2.2 rjChartOnly "acme" "widget"
     { name := "MyChart", browser_download_url := "https://u2" }
     (by decide) (by decide) (by decide)⟩

/-- C3. Against an endpoint whose every answer is a non-2xx status, both
scripts' `download_file` fail after exactly 3 attempts — each attempt's
failure being the non-success status — and, the destination being
initially absent and `curl -f` writing nothing on a server error, no
file (not even a partial one) exists at the destination afterwards. -/
theorem download_file_three_failed_attempts (resp : Nat → HttpResponse)
    (h : ∀ k, ∃ code body, resp k = HttpResponse.status code body ∧ is2xx code = false) :
    merge000.download_file resp none =
      { success := false, attempts := 3, dest := none } ∧
    merge001.download_file resp none =
      { success := false, attempts := 3, dest := none } := by
  obtain ⟨c0, b0, h0, h0f⟩ := h 0
  obtain ⟨c1, b1, h1, h1f⟩ := h 1
  obtain ⟨c2, b2, h2, h2f⟩ := h 2
  obtain ⟨c3, b3, h3, h3f⟩ := h 3
  constructor
  · simp [merge000.download_file, merge000.dlLoop, curlFetch, h0, h1, h2, h0f, h1f, h2f]
  · simp [merge001.download_file, merge001.dlLoop, curlFetch, h1, h2, h3, h1f, h2f, h3f]

/-- C3 (witness). An endpoint that always answers 500. -/
theorem download_file_three_failed_attempts_witness :
    merge000.download_file (fun _ => HttpResponse.status 500 "Internal Server Error") none =
      { success := false, attempts := 3, dest := none } ∧
    merge001.download_file (fun _ => HttpResponse.status 500 "Internal Server Error") none =
      { success := false, attempts := 3, dest := none } :=
  download_file_three_failed_attempts (fun _ => HttpResponse.status 500 "Internal Server Error")
    (fun _ => ⟨500, "Internal Server Error", rfl, rfl⟩)

/-- C4. Under `set -euo pipefail`, whatever the per-upstream outcomes,
both merge scripts' `main` abort with exit code 1 right after the first
upstream: the first `((processed_count++))` or `((failed_count++))`
increments a counter from 0, which returns exit status 1 and triggers
`set -e`. No further upstream is processed and the success/failure
summary is never reached. -/
theorem main_aborts_after_first_upstream :
    (∀ outcome : String → Bool, merge000.mainRun outcome = RunResult.aborted 1 1) ∧
    (∀ outcome : String → Bool, merge001.mainRun outcome = RunResult.aborted 1 1) := by
  constructor
  · intro oc
    cases h : oc "envoyproxy/gateway" <;>
      simp [merge000.mainRun, merge000.upstreams, merge000.mainLoop, h]
  · intro oc
    cases h : oc "envoyproxy/gateway" <;>
      simp [merge001.mainRun, merge001.repos, merge001.mainLoop, h]

/-- C5 (counterexample). A payload with a chart asset but no `tag_name`:
the Go `FetchLatestRelease` succeeds and returns a `ChartRelease` whose
`Version` is the empty string, instead of failing the lookup. -/
theorem fetchLatestRelease_empty_tag_success :
    fetchLatestRelease "acme" "widget" (Except.ok relNoTag) =
      Except.ok { Owner := "acme", Repo := "widget", Version := "",
                  URL := "https://example.com/chart.tgz" } := by
  rfl

/-- C5 (amended). The bash lookup path of part_001 fails rather than
returning a record when the payload carries no tag; the Go
`FetchLatestRelease` performs no such check: whenever it succeeds, the
returned `Version` is just the payload's `tag_name` field (the empty
string when that field is nil). -/
theorem lookup_tag_validation :
    (∀ (rj : ReleaseJson) (k : String), rj.tag_name = none →
      merge001.get_download_url rj k =
        Except.error ("No tag_name in API response for " ++ k ++ " - skipping")) ∧
    (∀ (owner repo : String) (rel : GoRelease) (cr : ChartRelease),
      fetchLatestRelease owner repo (Except.ok rel) = Except.ok cr →
      cr.Version = rel.tagName.getD "") := by
  constructor
  · intro rj k h
    simp [merge001.get_download_url, h]
  · intro owner repo rel cr h
    unfold fetchLatestRelease at h
    by_cases hu : findChartAsset rel = ""
    · simp [hu] at h
    · simp [hu] at h
      rw [← h]

/-- C5 (witness). The bash lookup rejects the tagless payload; the Go
lookup's successful result on a tagged payload carries that tag. -/
theorem lookup_tag_validation_witness :
    merge001.get_download_url rjNoTag "acme/widget" =
      Except.error ("No tag_name in API response for " ++ "acme/widget" ++ " - skipping") ∧
    ({ Owner := "o", Repo := "r", Version := "v1.0.0", URL := "https://u" } : ChartRelease).Version =
      relTagged.tagName.getD "" :=
  ⟨lookup_tag_validation.1 rjNoTag "acme/widget" rfl,
   lookup_tag_validation.2 "o" "r" relTagged
     { Owner := "o", Repo := "r", Version := "v1.0.0", URL := "https://u" } (by rfl)⟩

/-- C6 (counterexample). At the spec's own scenario (owner acme, project
widget, tag v2.3.1, empty asset list), part_000's `process_upstream`
derives the filename `acme-widget-v2.3.1.tgz` — with the owner prefix
and a `.tgz` extension — not the claimed `widget-v2.3.1.tar.gz`. -/
theorem process_upstream_filename_counterexample :
    merge000.process_upstream widgetNoAssets "acme" "widget" =
      Except.ok ("https://github.com/\x7b\"tag_name\": \"v2.3.1\", \"assets\": []\x7d/acme/archive/refs/tags/v2.3.1.tar.gz",
        "acme-widget-v2.3.1.tgz") ∧
    ("acme-widget-v2.3.1.tgz" : String) ≠ "widget-v2.3.1.tar.gz" := by
  exact ⟨rfl, by decide⟩

/-- C6 (amended). part_001's `process_repo` derives the filename as the
claim states: `{project}-{tag}.tgz`, or `{project}-{tag}.tar.gz` when
the resolved URL ends in `.tar.gz`; on the acme/widget empty-assets
scenario (with the payload's `repository.full_name` present, which that
script's fallback requires) it yields `widget-v2.3.1.tar.gz`. part_000's
`process_upstream` instead derives `{owner}-{project}-{tag}.tgz`. -/
theorem filename_derivation :
    (∀ (rj : ReleaseJson) (owner_repo url fname : String),
      merge001.process_repo_resolve rj owner_repo = Except.ok (url, fname) →
      fname = claimedFilename (afterLastSlash owner_repo) (rj.tag_name.getD "") url) ∧
    (merge001.process_repo_resolve widgetNoAssetsFullName "acme/widget" =
      Except.ok ("https://github.com/acme/widget/archive/refs/tags/v2.3.1.tar.gz",
        "widget-v2.3.1.tar.gz")) := by
  constructor
  · intro rj owner_repo url fname h
    simp only [merge001.process_repo_resolve] at h
    split at h
    · exact Except.noConfusion h
    · split at h
      · exact Except.noConfusion h
      · split at h
        · exact Except.noConfusion h
        · rw [Except.ok.injEq, Prod.mk.injEq] at h
          obtain ⟨hurl, hname⟩ := h
          subst hurl
          subst hname
          rfl
  · rfl

/-- C6 (witness). The spec's first scenario: a single `.tgz` asset named
`widget-v2.3.1.tgz` resolves to that asset's URL and the filename
`widget-v2.3.1.tgz`. -/
theorem filename_derivation_witness :
    ("widget-v2.3.1.tgz" : String) =
      claimedFilename (afterLastSlash "acme/widget") ("v2.3.1")
        "https://x/widget.tgz" :=
  filename_derivation.1
    { raw := "raw", tag_name := some "v2.3.1",
      assets := [{ name := "widget-v2.3.1.tgz", browser_download_url := "https://x/widget.tgz" }],
      repository_full_name := none }
    "acme/widget" "https://x/widget.tgz" "widget-v2.3.1.tgz" (by rfl)

/-- C7. The cleanup pass never fails: whatever the helm uninstall
outcomes (and in particular when every release is absent and every
uninstall errors), `cleanPreviousInstall` returns nil; when every
uninstall fails, each of the three releases yields an attempted
uninstall followed by a swallowed-and-logged note. -/
theorem cleanPreviousInstall_always_succeeds :
    (∀ (cfg : Config) (isDryRun : Bool) (run : List String → Bool),
      (cleanPreviousInstall cfg isDryRun run).2 = Except.ok ()) ∧
    (∀ cfg : Config,
      (cleanPreviousInstall cfg false (fun _ => false)).1 =
        [Effect.execProcess "helm" ["uninstall", "eg", "-n", cfg.NamespaceGateway],
         Effect.printLine "  Note: eg was not previously installed",
         Effect.execProcess "helm" ["uninstall", "aieg-crd", "-n", cfg.NamespaceAI],
         Effect.printLine "  Note: aieg-crd was not previously installed",
         Effect.execProcess "helm" ["uninstall", "aieg", "-n", cfg.NamespaceAI],
         Effect.printLine "  Note: aieg was not previously installed"]) := by
  exact ⟨fun cfg isDryRun run => rfl, fun cfg => rfl⟩

/-- C8. With the dry-run flag set, each of the four mutating helm
operations prints exactly one description line, executes no external
process, and reports success, for every helm behavior and every
argument. -/
theorem dryRun_suppresses_mutations :
    ∀ (run : List String → Bool) (name url rn chart ns : String) (opts : HelmOptions),
      (((HelmCommand.mk true).RepoAdd run name url).1.all (fun e => !e.isExec) = true ∧
        ((HelmCommand.mk true).RepoAdd run name url).1.length = 1 ∧
        ((HelmCommand.mk true).RepoAdd run name url).2 = Except.ok ()) ∧
      (((HelmCommand.mk true).RepoUpdate run).1.all (fun e => !e.isExec) = true ∧
        ((HelmCommand.mk true).RepoUpdate run).1.length = 1 ∧
        ((HelmCommand.mk true).RepoUpdate run).2 = Except.ok ()) ∧
      (((HelmCommand.mk true).Install run rn chart ns opts).1.all (fun e => !e.isExec) = true ∧
        ((HelmCommand.mk true).Install run rn chart ns opts).1.length = 1 ∧
        ((HelmCommand.mk true).Install run rn chart ns opts).2 = Except.ok ()) ∧
      (((HelmCommand.mk true).Uninstall run rn ns).1.all (fun e => !e.isExec) = true ∧
        ((HelmCommand.mk true).Uninstall run rn ns).1.length = 1 ∧
        ((HelmCommand.mk true).Uninstall run rn ns).2 = Except.ok ()) := by
  intro run name url rn chart ns opts
  refine ⟨⟨rfl, rfl, rfl⟩, ⟨rfl, rfl, rfl⟩, ⟨?_, ?_, ?_⟩, ⟨rfl, rfl, rfl⟩⟩
  · simp [HelmCommand.Install, HelmCommand.Execute, Effect.isExec]
  · simp [HelmCommand.Install, HelmCommand.Execute]
  · simp [HelmCommand.Install, HelmCommand.Execute]

/-- C9. A namespace probe always passes (a missing namespace reports
"will be created" and returns true); the doctor succeeds exactly when
every required probe passes; and the redis probe's outcome never
affects the doctor's result. -/
theorem doctor_health_aggregation :
    ∀ (env : DoctorEnv) (nsGW nsAI : String),
      checkNamespace env nsGW = true ∧
      ((runDoctor env nsGW nsAI).2 = Except.ok () ↔
        (checkKubectl env = true ∧ checkHelm env = true ∧
          checkKubernetesConnection env = true ∧ checkNamespace env nsGW = true ∧
          checkNamespace env nsAI = true)) ∧
      (∀ f g : String → Option String,
        (runDoctor { env with redisPodName := f } nsGW nsAI).2 =
          (runDoctor { env with redisPodName := g } nsGW nsAI).2) := by
  intro env nsGW nsAI
  refine ⟨by simp [checkNamespace], ?_, ?_⟩
  · by_cases h1 : checkKubectl env = true <;>
      by_cases h2 : checkHelm env = true <;>
        by_cases h3 : checkKubernetesConnection env = true <;>
          simp [runDoctor, checkNamespace, h1, h2, h3]
  · intro f g
    simp only [runDoctor, apply_ite Prod.snd]
    rfl

/-- C9 (witness). In a concrete environment with every tool healthy and
no namespaces present, the namespace probe passes. -/
theorem doctor_health_aggregation_witness :
    checkNamespace envAllTools "envoy-gateway-system" = true :=
  (doctor_health_aggregation envAllTools "envoy-gateway-system" "envoy-ai-gateway-system").1

/-- Characterization of the `GetUpstreamCharts` loop: the chart list is
the in-order successful fetches and the error list the in-order failure
messages. -/
theorem getUpstreamChartsLoop_spec (fetch : String → String → Except String ChartRelease) :
    ∀ l : List (String × String),
      getUpstreamChartsLoop fetch l =
        (l.filterMap (fun u => chartOf (fetch u.1 u.2)),
          l.filterMap (fun u => errOf (fetch u.1 u.2))) := by
  intro l
  induction l with
  | nil => rfl
  | cons u rest ih =>
    obtain ⟨o, r⟩ := u
    cases h : fetch o r <;>
      simp [getUpstreamChartsLoop, h, ih, chartOf, errOf]

/-- C10. `GetUpstreamCharts` returns every successfully fetched chart in
upstream order even when other upstreams fail; its error is nil exactly
when every upstream lookup succeeded; and a non-nil error aggregates, one
line each, exactly the failed upstreams' messages. -/
theorem getUpstreamCharts_aggregation :
    ∀ fetch : String → String → Except String ChartRelease,
      ((GetUpstreamCharts fetch).1 =
        goUpstreams.filterMap (fun u => chartOf (fetch u.1 u.2))) ∧
      ((GetUpstreamCharts fetch).2 = none ↔
        ∀ u ∈ goUpstreams, errOf (fetch u.1 u.2) = none) ∧
      (∀ msg, (GetUpstreamCharts fetch).2 = some msg →
        msg = "errors fetching upstream charts:\n" ++
          String.intercalate "\n" (goUpstreams.filterMap (fun u => errOf (fetch u.1 u.2)))) := by
  intro fetch
  have hloop := getUpstreamChartsLoop_spec fetch goUpstreams
  refine ⟨?_, ?_, ?_⟩
  · unfold GetUpstreamCharts
    rw [hloop]
    by_cases h : (goUpstreams.filterMap (fun u => errOf (fetch u.1 u.2))).isEmpty = true <;>
      simp [h]
  · unfold GetUpstreamCharts
    rw [hloop]
    by_cases h : (goUpstreams.filterMap (fun u => errOf (fetch u.1 u.2))).isEmpty = true
    · simp only [h, if_true]
      simp only [List.isEmpty_iff, List.filterMap_eq_nil_iff] at h
      simpa using h
    · simp only [h, if_false]
      simp only [List.isEmpty_iff, List.filterMap_eq_nil_iff] at h
      simp only [List.isEmpty_iff] at *
      constructor
      · intro hc; cases hc
      · intro hall
        exact absurd (List.filterMap_eq_nil_iff.mpr hall) (by simpa using h)
  · intro msg
    unfold GetUpstreamCharts
    rw [hloop]
    by_cases h : (goUpstreams.filterMap (fun u => errOf (fetch u.1 u.2))).isEmpty = true
    · simp [h]
    · simp only [h, if_false]
      intro hmsg
      exact (Option.some.inj hmsg).symm

/-- C10 (witness). When only the gateway upstream succeeds, the
aggregate message lists the three failed upstreams' errors. -/
theorem getUpstreamCharts_aggregation_witness :
    ("errors fetching upstream charts:\n" ++
        "failed to fetch latest release for envoyproxy/ai-gateway-helm: 404\n" ++
        "failed to fetch latest release for envoyproxy/ai-gateway-crds-helm: 404\n" ++
        "failed to fetch latest release for envoyproxy/ai-gateway: 404" : String) =
      "errors fetching upstream charts:\n" ++
        String.intercalate "\n"
          (goUpstreams.filterMap (fun u => errOf (fetchOnlyGateway u.1 u.2))) :=
  (getUpstreamCharts_aggregation fetchOnlyGateway).2.2
    ("errors fetching upstream charts:\n" ++
      "failed to fetch latest release for envoyproxy/ai-gateway-helm: 404\n" ++
      "failed to fetch latest release for envoyproxy/ai-gateway-crds-helm: 404\n" ++
      "failed to fetch latest release for envoyproxy/ai-gateway: 404") (by rfl)
